import Mathlib

/-!
Shallow embedding of the soybean-acreage dashboard core pipeline
(source file: src/steamlit.py) and verification of the frozen claims.

Strings of the Python program are modelled as lists of Unicode codepoints
(`List Nat`); missing values (pandas NaN / None cells) are modelled as
`Option`; floating-point numeric cells are modelled as `Option Rat`.
-/

namespace SoyDash

/-- PStr models a Python string as its list of Unicode codepoints. -/
abbrev PStr := List Nat

/-- S converts a Lean string literal to its codepoint-list model. -/
def S (s : String) : PStr := s.data.map Char.toNat

/-- pyUpperChar models Python `str.upper` on one ASCII codepoint: the
lowercase letters a-z (97-122) map to A-Z, everything else is unchanged.
The district names handled by the program are ASCII. -/
def pyUpperChar (c : Nat) : Nat := if 97 ≤ c ∧ c ≤ 122 then c - 32 else c

/-- pyIsSpace models Python whitespace for `str.strip` (ASCII range:
space, tab, LF, VT, FF, CR). -/
def pyIsSpace (c : Nat) : Bool :=
  decide (c = 32 ∨ c = 9 ∨ c = 10 ∨ c = 11 ∨ c = 12 ∨ c = 13)

/-- pyUpper models `Series.str.upper()`: uppercase every codepoint. -/
def pyUpper (s : PStr) : PStr := s.map pyUpperChar

/-- pyStrip models `Series.str.strip()`: drop leading and trailing
whitespace. -/
def pyStrip (s : PStr) : PStr :=
  ((s.dropWhile pyIsSpace).reverse.dropWhile pyIsSpace).reverse

/-- normStr is the normalization applied to a present (non-NaN) cell on
both sides of the join: `.str.upper().str.strip()`
(src/steamlit.py lines 74 and 83). -/
def normStr (s : PStr) : PStr := pyStrip (pyUpper s)

/-- astypeStr models pandas `.astype(str)` on one cell: a present string
is unchanged, a missing value (NaN) is rendered as the string "nan". -/
def astypeStr (v : Option PStr) : PStr := v.getD (S ("nan"))

/-- districtKey models
`df[district_col].astype(str).str.upper().str.strip()` on one cell
(src/steamlit.py line 74 / line 83): the join key of a record. -/
def districtKey (v : Option PStr) : PStr := normStr (astypeStr v)

-- ## Lemmas about the normalizer

theorem pyUpperChar_idem (c : Nat) : pyUpperChar (pyUpperChar c) = pyUpperChar c := by
  simp only [pyUpperChar]
  split_ifs with h1 h2 <;> omega

theorem pyIsSpace_pyUpperChar (c : Nat) : pyIsSpace (pyUpperChar c) = pyIsSpace c := by
  simp only [pyIsSpace, pyUpperChar]
  split_ifs with h
  · simp only [decide_eq_decide]
    omega
  · rfl

theorem map_dropWhile_comm (f : Nat → Nat) (p : Nat → Bool)
    (hp : ∀ c, p (f c) = p c) :
    ∀ l : List Nat, (l.dropWhile p).map f = (l.map f).dropWhile p
  | [] => rfl
  | c :: t => by
    rw [List.map_cons, List.dropWhile_cons, List.dropWhile_cons, hp]
    cases h : p c
    · simp
    · simpa using map_dropWhile_comm f p hp t

theorem pyUpper_pyStrip_comm (s : PStr) : pyUpper (pyStrip s) = pyStrip (pyUpper s) := by
  simp only [pyUpper, pyStrip, List.map_reverse]
  rw [map_dropWhile_comm pyUpperChar pyIsSpace pyIsSpace_pyUpperChar,
    List.map_reverse,
    map_dropWhile_comm pyUpperChar pyIsSpace pyIsSpace_pyUpperChar]

theorem pyUpper_idem (s : PStr) : pyUpper (pyUpper s) = pyUpper s := by
  simp only [pyUpper, List.map_map]
  exact List.map_congr_left fun c _ => pyUpperChar_idem c

theorem dropWhile_idem (p : Nat → Bool) :
    ∀ l : List Nat, (l.dropWhile p).dropWhile p = l.dropWhile p
  | [] => rfl
  | c :: t => by
    rw [List.dropWhile_cons]
    cases h : p c
    · simp [List.dropWhile_cons, h]
    · simpa using dropWhile_idem p t

/-- backStrip drops trailing whitespace only. -/
def backStrip (s : PStr) : PStr := (s.reverse.dropWhile pyIsSpace).reverse

theorem pyStrip_eq_backStrip_dropWhile (s : PStr) :
    pyStrip s = backStrip (s.dropWhile pyIsSpace) := rfl

theorem backStrip_idem (s : PStr) : backStrip (backStrip s) = backStrip s := by
  simp only [backStrip, List.reverse_reverse]
  rw [dropWhile_idem]

theorem head_not_space_of_dropWhile (p : Nat → Bool) :
    ∀ (l : List Nat) (c : Nat) (cs : List Nat), List.dropWhile p l = c :: cs → p c = false
  | [], _, _, h => by simp at h
  | a :: t, c, cs, h => by
    rw [List.dropWhile_cons] at h
    cases ha : p a
    · rw [ha] at h
      simp only [Bool.false_eq_true, if_false] at h
      cases h
      exact ha
    · rw [ha] at h
      simp only [if_true] at h
      exact head_not_space_of_dropWhile p t c cs h

/-- backStrip yields a prefix of its input. -/
theorem backStrip_isPrefix (s : PStr) : backStrip s <+: s := by
  obtain ⟨t, ht⟩ := List.dropWhile_suffix (l := s.reverse) pyIsSpace
  refine ⟨t.reverse, ?_⟩
  rw [backStrip, ← List.reverse_append, ht, List.reverse_reverse]

theorem dropWhile_eq_self_of_head (p : Nat → Bool) (l : List Nat)
    (h : ∀ c cs, l = c :: cs → p c = false) : l.dropWhile p = l := by
  cases l with
  | nil => rfl
  | cons c cs => rw [List.dropWhile_cons, h c cs rfl]; simp

theorem pyStrip_idem (s : PStr) : pyStrip (pyStrip s) = pyStrip s := by
  have hfront : (pyStrip s).dropWhile pyIsSpace = pyStrip s := by
    apply dropWhile_eq_self_of_head
    intro c cs hc
    obtain ⟨r, hr⟩ := backStrip_isPrefix (s.dropWhile pyIsSpace)
    rw [pyStrip_eq_backStrip_dropWhile] at hc
    rw [hc] at hr
    exact head_not_space_of_dropWhile pyIsSpace s c (cs ++ r) (by rw [← hr]; simp)
  calc pyStrip (pyStrip s)
      = backStrip ((pyStrip s).dropWhile pyIsSpace) := rfl
    _ = backStrip (pyStrip s) := by rw [hfront]
    _ = backStrip (backStrip (s.dropWhile pyIsSpace)) := by
        rw [pyStrip_eq_backStrip_dropWhile]
    _ = backStrip (s.dropWhile pyIsSpace) := backStrip_idem _
    _ = pyStrip s := rfl

theorem normStr_idem (s : PStr) : normStr (normStr s) = normStr s := by
  simp only [normStr]
  rw [pyUpper_pyStrip_comm (pyUpper s), pyUpper_idem s, pyStrip_idem]

-- ## Data model

/-- StatRecord models one row of the stability CSV loaded by
`load_stability_table` (src/steamlit.py lines 62-75). Optional cells are
pandas NaN, modelled as `none`. -/
structure StatRecord where
  district : Option PStr
  state : Option PStr
  stab_class : Option PStr
  mean_acreage : Option Rat
  predicted_2025 : Option Rat
  acreage_2024 : Option Rat
  deriving DecidableEq

/-- BoundaryRecord models one row of the shapefile loaded by
`load_shapefile` (src/steamlit.py lines 77-84); `geom` is an opaque
geometry identifier. -/
structure BoundaryRecord where
  district : Option PStr
  state : Option PStr
  geom : Nat
  deriving DecidableEq

/-- JoinedRecord models one row of `gdf_join` (src/steamlit.py lines
103-108): the boundary columns keep their names, the overlapping
statistics columns get the `_stab` suffix, and the statistics payload
columns come across unchanged. -/
structure JoinedRecord where
  district : Option PStr
  state : Option PStr
  geom : Nat
  district_stab : Option PStr
  state_stab : Option PStr
  stab_class : Option PStr
  mean_acreage : Option Rat
  predicted_2025 : Option Rat
  acreage_2024 : Option Rat
  deriving DecidableEq

-- ## Join (section 3 of the source)

/-- matchesKey holds when a statistics row and a boundary row agree on
the normalized `District_key` merge column. -/
def matchesKey (b : BoundaryRecord) (s : StatRecord) : Bool :=
  decide (districtKey s.district = districtKey b.district)

/-- joinRow builds one output row of the left merge: the boundary side
is always present, the statistics side is `none` for an unmatched
boundary row (pandas fills its columns with NaN). -/
def joinRow (b : BoundaryRecord) (s : Option StatRecord) : JoinedRecord :=
  { district := b.district
    state := b.state
    geom := b.geom
    district_stab := s.bind StatRecord.district
    state_stab := s.bind StatRecord.state
    stab_class := s.bind StatRecord.stab_class
    mean_acreage := s.bind StatRecord.mean_acreage
    predicted_2025 := s.bind StatRecord.predicted_2025
    acreage_2024 := s.bind StatRecord.acreage_2024 }

/-- gdf_merge models `gdf.merge(stab_df, on="District_key", how="left")`
(src/steamlit.py lines 103-108): each boundary row in order emits one
output row per matching statistics row, or a single NaN-filled row when
nothing matches. -/
def gdf_merge (gdf : List BoundaryRecord) (stab : List StatRecord) : List JoinedRecord :=
  gdf.flatMap fun b =>
    match stab.filter (matchesKey b) with
    | [] => [joinRow b none]
    | m :: ms => (m :: ms).map fun s => joinRow b (some s)

-- ## Classifier (section 6 of the source)

/-- pyContains models the Python substring test `needle in hay`. -/
def pyContains (needle : PStr) : PStr → Bool
  | [] => needle.isPrefixOf []
  | c :: t => needle.isPrefixOf (c :: t) || pyContains needle t

/-- classify_color models `classify_color` (src/steamlit.py lines
165-176): NaN gives grey, then substring checks in fixed priority order
Marginal (red), Highly Volatile (orange), Moderately Variable (yellow),
Stable (green), defaulting to grey. -/
def classify_color (stab_class : Option PStr) : PStr :=
  match stab_class with
  | none => S ("#CCCCCC")
  | some s =>
    if pyContains (S ("Marginal Acreage")) s then S ("#FF0000")
    else if pyContains (S ("Highly Volatile")) s then S ("#FF7F00")
    else if pyContains (S ("Moderately Variable")) s then S ("#FFFF00")
    else if pyContains (S ("Stable Acreage")) s then S ("#00A000")
    else S ("#CCCCCC")

-- ## Filters (sections 4 and 5 of the source)

/-- stability_classes is the fixed four-class taxonomy offered by the
multiselect (src/steamlit.py lines 131-136). -/
def stability_classes : List PStr :=
  [S ("Stable Acreage"),
   S ("Moderately Variable"),
   S ("Highly Volatile / Crop Switching Likely"),
   S ("Marginal Acreage (Statistically Unstable)")]

/-- stateEq models `df_view[state_col_csv] == selected_state_filter` on
one row: a NaN state never equals the selected state. -/
def stateEq (sel : PStr) (r : JoinedRecord) : Bool :=
  match r.state with
  | none => false
  | some st => decide (st = sel)

/-- classInSel models
`df_view["Acreage_Stability_Class"].isin(stab_opts)` on one row: NaN is
never a member. -/
def classInSel (stabOpts : List PStr) (r : JoinedRecord) : Bool :=
  match r.stab_class with
  | none => false
  | some c => stabOpts.contains c

/-- df_view_filter models section 5 APPLY FILTERS (src/steamlit.py lines
148-156): the state filter runs only when the selection is not "All" and
the state column exists; the class filter runs only when `stab_opts` is
non-empty (`if stab_opts:` is false for an empty Python list, so an
empty multiselect skips the class filter entirely). -/
def df_view_filter (hasStateCol : Bool) (df : List JoinedRecord)
    (stateSel : PStr) (stabOpts : List PStr) : List JoinedRecord :=
  let d1 := if stateSel ≠ S ("All") ∧ hasStateCol = true
    then df.filter (stateEq stateSel) else df
  if stabOpts ≠ [] then d1.filter (classInSel stabOpts) else d1

-- ## Summary KPIs (section 7 of the source)

/-- total_pred_2025 models
`df_view["Predicted_2025_Acreage"].sum(skipna=True)`
(src/steamlit.py line 183): NaN cells are skipped. -/
def total_pred_2025 (df : List JoinedRecord) : Rat :=
  (df.filterMap JoinedRecord.predicted_2025).sum

/-- base_area models `df_view["Mean_Acreage"].sum(skipna=True)`
(src/steamlit.py line 186). -/
def base_area (df : List JoinedRecord) : Rat :=
  (df.filterMap JoinedRecord.mean_acreage).sum

/-- delta_pct models lines 185-190 of src/steamlit.py: `None` unless the
`Mean_Acreage` column exists and its total is strictly positive. -/
def delta_pct (hasMeanCol : Bool) (df : List JoinedRecord) : Option Rat :=
  if hasMeanCol then
    if 0 < base_area df then
      some ((total_pred_2025 df - base_area df) / base_area df * 100)
    else none
  else none

-- ## Selected-district state (section 8 of the source)

/-- all_districts models
`sorted(df_view[district_col_csv].dropna().unique())`
(src/steamlit.py line 245): the distinct non-null district names of the
FILTERED view, sorted ascending (lexicographic on codepoints, as Python
string comparison). -/
def all_districts (df : List JoinedRecord) : List PStr :=
  ((df.filterMap JoinedRecord.district).dedup).insertionSort (· ≤ ·)

/-- init_selected models the first-access initialization
`st.session_state["selected_district"] = all_districts[0]`
(src/steamlit.py lines 259-260); `none` models the IndexError raised
when `all_districts` is empty. -/
def init_selected (df : List JoinedRecord) : Option PStr :=
  (all_districts df)[0]?

/-- resolve_selected models the whole selected-district update of one
render pass (src/steamlit.py lines 259-270): initialize the session cell
to `all_districts[0]` when absent, overwrite it with a clicked district,
then reset it to `all_districts[0]` when the held key is not in
`all_districts`. `none` models the IndexError raised whenever
`all_districts` is empty (line 260 or line 269). -/
def resolve_selected (stored : Option PStr) (clicked : Option PStr)
    (df : List JoinedRecord) : Option PStr :=
  match all_districts df with
  | [] => none
  | d0 :: _ =>
    let s1 := stored.getD d0
    let s2 := clicked.getD s1
    if s2 ∈ all_districts df then some s2 else some d0

/-- drow models `df_view[df_view[district_col_csv] == selected_district].iloc[0]`
(src/steamlit.py line 272): the first filtered row whose district equals
the selection; `none` models the IndexError on an empty selection. -/
def drow (df : List JoinedRecord) (sel : PStr) : Option JoinedRecord :=
  (df.filter fun r => decide (r.district = some sel))[0]?

-- ## Sample records used as concrete inputs

/-- rowStable is a joined row for district "BBB" with class Stable Acreage. -/
def rowStable : JoinedRecord :=
  { district := some (S ("BBB")), state := some (S ("MH")), geom := 0,
    district_stab := some (S ("BBB")), state_stab := some (S ("MH")),
    stab_class := some (S ("Stable Acreage")),
    mean_acreage := some 10, predicted_2025 := some 12, acreage_2024 := some 11 }

/-- rowNoClass is a joined row for district "AAA" whose stability class and
statistics are missing (an unmatched boundary row). -/
def rowNoClass : JoinedRecord :=
  { district := some (S ("AAA")), state := some (S ("MH")), geom := 1,
    district_stab := none, state_stab := none, stab_class := none,
    mean_acreage := none, predicted_2025 := none, acreage_2024 := none }

/-- rowNoDistrict is a joined row with a null district name but a valid
stability class (a boundary row with a null name joined through the "NAN"
key). -/
def rowNoDistrict : JoinedRecord :=
  { district := none, state := some (S ("MH")), geom := 2,
    district_stab := some (S ("NAN")), state_stab := some (S ("MH")),
    stab_class := some (S ("Stable Acreage")),
    mean_acreage := some 3, predicted_2025 := some 4, acreage_2024 := none }

/-- bX is a boundary row for district "X". -/
def bX : BoundaryRecord :=
  { district := some (S ("X")), state := some (S ("MH")), geom := 7 }

/-- sX1 is a statistics row for district "X". -/
def sX1 : StatRecord :=
  { district := some (S ("X")), state := some (S ("MH")),
    stab_class := some (S ("Stable Acreage")),
    mean_acreage := some 10, predicted_2025 := some 12, acreage_2024 := some 11 }

/-- sX2 is a second statistics row carrying the same normalized key as sX1. -/
def sX2 : StatRecord :=
  { district := some (S (" x ")), state := some (S ("MH")),
    stab_class := some (S ("Highly Volatile / Crop Switching Likely")),
    mean_acreage := some 2, predicted_2025 := some 5, acreage_2024 := none }

-- ## Lemmas about the district list and selection

theorem mem_all_districts {df : List JoinedRecord} {d : PStr} :
    d ∈ all_districts df ↔ ∃ r ∈ df, r.district = some d := by
  simp [all_districts, List.mem_insertionSort, List.mem_dedup, List.mem_filterMap]

theorem all_districts_sorted (df : List JoinedRecord) :
    List.Sorted (· ≤ ·) (all_districts df) :=
  List.sorted_insertionSort _ _

theorem all_districts_head_least {df : List JoinedRecord} {d0 : PStr} {rest : List PStr}
    (h : all_districts df = d0 :: rest) :
    ∀ d ∈ all_districts df, d0 ≤ d := by
  intro d hd
  rw [h] at hd
  rcases List.mem_cons.mp hd with rfl | hd2
  · exact le_refl d
  · exact List.rel_of_sorted_cons (h ▸ all_districts_sorted df) d hd2

theorem all_districts_ne_nil {df : List JoinedRecord} {r : JoinedRecord} {d : PStr}
    (hr : r ∈ df) (hd : r.district = some d) : all_districts df ≠ [] := by
  intro h
  have hm : d ∈ all_districts df := mem_all_districts.mpr ⟨r, hr, hd⟩
  rw [h] at hm
  exact absurd hm (List.not_mem_nil d)

theorem drow_mem {df : List JoinedRecord} {d : PStr}
    (h : ∃ r ∈ df, r.district = some d) : ∃ r, drow df d = some r ∧ r ∈ df := by
  obtain ⟨r, hr, hrd⟩ := h
  have hf : r ∈ df.filter (fun x => decide (x.district = some d)) :=
    List.mem_filter.mpr ⟨hr, by simp [hrd]⟩
  cases hflt : df.filter (fun x => decide (x.district = some d)) with
  | nil => rw [hflt] at hf; exact absurd hf (List.not_mem_nil r)
  | cons r0 rest =>
    refine ⟨r0, ?_, ?_⟩
    · simp [drow, hflt]
    · have hr0 : r0 ∈ df.filter (fun x => decide (x.district = some d)) :=
        hflt ▸ List.mem_cons_self r0 rest
      exact (List.mem_filter.mp hr0).1

theorem filterMap_sum_eq_getD (f : JoinedRecord → Option Rat) :
    ∀ df : List JoinedRecord,
      (df.filterMap f).sum = (df.map (fun r => (f r).getD 0)).sum
  | [] => rfl
  | r :: t => by
    cases hf : f r
    · simpa [List.filterMap_cons, hf] using filterMap_sum_eq_getD f t
    · simp [List.filterMap_cons, hf, filterMap_sum_eq_getD f t]

theorem delta_pct_none_of_base_zero {df : List JoinedRecord}
    (h : base_area df = 0) : delta_pct true df = none := by
  simp [delta_pct, h]

-- ## Claim theorems

/-- C1: counterexample — filtering the non-empty dataset [rowStable] with
state scope "All" and an empty stability-class selection returns the dataset
unchanged (the `if stab_opts:` guard skips the class filter for an empty
Python list), not the empty result the claim asserts. -/
theorem C1_counterexample :
    df_view_filter true [rowStable] (S ("All")) [] = [rowStable] ∧
    ([rowStable] : List JoinedRecord) ≠ [] := by
  exact ⟨by decide, by decide⟩

/-- C1 (amended): for every joined dataset x, applying the filter with state
scope "All" and an empty stability-class selection set skips the class
filter entirely and returns x unchanged — the empty multi-select passes
everything through, so the result is non-empty whenever x is. -/
theorem C1_empty_selection (hasState : Bool) (x : List JoinedRecord) :
    df_view_filter hasState x (S ("All")) [] = x := by
  simp [df_view_filter]

/-- C2: counterexample — with state "All" and the full four-class selection,
a row whose stability class is missing fails the `isin` test and is dropped,
so the filter is not the identity on [rowNoClass]. -/
theorem C2_counterexample :
    df_view_filter true [rowNoClass] (S ("All")) stability_classes = [] ∧
    ([] : List JoinedRecord) ≠ [rowNoClass] := by
  exact ⟨by decide, by decide⟩

/-- C2 (amended): with state scope "All" and the full four-class selection
the filter preserves the input row order (the result is a sublist of the
input), and it returns x unchanged provided every row of x carries one of
the four fixed classes; rows whose class is missing or unrecognized are
dropped, not kept. -/
theorem C2_full_selection (hasState : Bool) (x : List JoinedRecord) :
    (df_view_filter hasState x (S ("All")) stability_classes).Sublist x ∧
    ((∀ r ∈ x, ∃ c ∈ stability_classes, r.stab_class = some c) →
      df_view_filter hasState x (S ("All")) stability_classes = x) := by
  have hview : df_view_filter hasState x (S ("All")) stability_classes
      = x.filter (classInSel stability_classes) := by
    simp [df_view_filter, stability_classes]
  constructor
  · rw [hview]
    exact List.filter_sublist x
  · intro hall
    rw [hview]
    apply List.filter_eq_self.mpr
    intro r hr
    obtain ⟨c, hc, hrc⟩ := hall r hr
    simp only [classInSel, hrc]
    simpa [List.contains, List.elem_iff] using hc

/-- C2 witness: the amended identity holds on the concrete one-row dataset
[rowStable], whose class is one of the four. -/
theorem C2_full_selection_witness :
    df_view_filter true [rowStable] (S ("All")) stability_classes = [rowStable] :=
  (C2_full_selection true [rowStable]).2 (by decide)

/-- C5: classify_color maps missing input to grey, matches by substring
containment in the fixed priority order marginal-red, volatile-orange,
variable-yellow, stable-green with grey default, and any label containing
both "Stable Acreage" and "Marginal Acreage" resolves to red (first match
wins). -/
theorem C5_classify_color :
    classify_color none = S ("#CCCCCC") ∧
    classify_color (some (S ("Marginal Acreage (Statistically Unstable)"))) = S ("#FF0000") ∧
    (∀ s, pyContains (S ("Marginal Acreage")) s = true →
      classify_color (some s) = S ("#FF0000")) ∧
    (∀ s, pyContains (S ("Marginal Acreage")) s = false →
      pyContains (S ("Highly Volatile")) s = true →
      classify_color (some s) = S ("#FF7F00")) ∧
    (∀ s, pyContains (S ("Marginal Acreage")) s = false →
      pyContains (S ("Highly Volatile")) s = false →
      pyContains (S ("Moderately Variable")) s = true →
      classify_color (some s) = S ("#FFFF00")) ∧
    (∀ s, pyContains (S ("Marginal Acreage")) s = false →
      pyContains (S ("Highly Volatile")) s = false →
      pyContains (S ("Moderately Variable")) s = false →
      pyContains (S ("Stable Acreage")) s = true →
      classify_color (some s) = S ("#00A000")) ∧
    (∀ s, pyContains (S ("Marginal Acreage")) s = false →
      pyContains (S ("Highly Volatile")) s = false →
      pyContains (S ("Moderately Variable")) s = false →
      pyContains (S ("Stable Acreage")) s = false →
      classify_color (some s) = S ("#CCCCCC")) ∧
    (∀ s, pyContains (S ("Stable Acreage")) s = true →
      pyContains (S ("Marginal Acreage")) s = true →
      classify_color (some s) = S ("#FF0000")) := by
  refine ⟨rfl, by decide, ?_, ?_, ?_, ?_, ?_, ?_⟩
  · intro s h1
    simp [classify_color, h1]
  · intro s h1 h2
    simp [classify_color, h1, h2]
  · intro s h1 h2 h3
    simp [classify_color, h1, h2, h3]
  · intro s h1 h2 h3 h4
    simp [classify_color, h1, h2, h3, h4]
  · intro s h1 h2 h3 h4
    simp [classify_color, h1, h2, h3, h4]
  · intro s hs h1
    simp [classify_color, h1]

/-- C5 witness: the synthetic label containing both "Stable Acreage" and
"Marginal Acreage" resolves to red. -/
theorem C5_classify_color_witness :
    classify_color (some (S ("Stable Acreage Marginal Acreage"))) = S ("#FF0000") :=
  C5_classify_color.2.2.2.2.2.2.2 (S ("Stable Acreage Marginal Acreage"))
    (by decide) (by decide)

/-- C7: counterexample — the real district name "nan" normalizes to the same
key as a missing name, because pandas `astype(str)` renders NaN as the
string "nan" before uppercasing; the null-key sentinel is not distinct from
every real key. -/
theorem C7_counterexample :
    districtKey (some (S ("nan"))) = districtKey none := by decide

/-- C7 (amended): a missing region name maps to the fixed sentinel key
"NAN", but that sentinel coincides with the normalized key of real names
such as "nan", "NaN" or " NAN ", so it is not distinct from the key of
every real region name. -/
theorem C7_nan_sentinel :
    districtKey none = S ("NAN") ∧
    districtKey (some (S ("nan"))) = S ("NAN") ∧
    districtKey (some (S ("NaN"))) = S ("NAN") ∧
    districtKey (some (S (" NAN "))) = S ("NAN") := by
  exact ⟨by decide, by decide, by decide, by decide⟩

/-- C8: key normalization is idempotent — normalizing an already-normalized
string (and re-normalizing a computed district key) changes nothing — and
case and leading/trailing whitespace differences disappear: " abc " and
"ABC" normalize to the same key. -/
theorem C8_normalize_idempotent :
    (∀ s : PStr, normStr (normStr s) = normStr s) ∧
    (∀ v : Option PStr, normStr (districtKey v) = districtKey v) ∧
    normStr (S (" abc ")) = normStr (S ("ABC")) := by
  refine ⟨normStr_idem, ?_, by decide⟩
  intro v
  exact normStr_idem (astypeStr v)

/-- C3: counterexample — on first access the cell is initialized from the
FILTERED view, not the unfiltered one: for the dataset [rowNoClass,
rowStable] under the default filters (state "All", all four classes), the
row of district "AAA" has no stability class and is filtered out, so
initialization yields "BBB", while the first entry of the unfiltered sorted
list is "AAA". -/
theorem C3_counterexample :
    init_selected (df_view_filter true [rowNoClass, rowStable] (S ("All")) stability_classes)
      = some (S ("BBB")) ∧
    (all_districts [rowNoClass, rowStable])[0]? = some (S ("AAA")) ∧
    (some (S ("BBB")) : Option PStr) ≠ some (S ("AAA")) := by
  exact ⟨by decide, by decide, by decide⟩

/-- C3 (amended): on first access, before any map click, the selected
district cell is initialized to the first entry of the alphabetically
sorted list of distinct non-null district names of the CURRENTLY FILTERED
view: the initial value is the district of some filtered row and is ≤ every
district name occurring in the filtered view. -/
theorem C3_init_first_of_filtered (df : List JoinedRecord) (d : PStr)
    (h : init_selected df = some d) :
    (∃ r ∈ df, r.district = some d) ∧
    (∀ r ∈ df, ∀ e, r.district = some e → d ≤ e) := by
  cases hAD : all_districts df with
  | nil =>
    rw [init_selected, hAD] at h
    simp at h
  | cons d0 rest =>
    rw [init_selected, hAD] at h
    simp only [List.getElem?_cons_zero, Option.some.injEq] at h
    subst h
    constructor
    · exact mem_all_districts.mp (hAD ▸ List.mem_cons_self d0 rest)
    · intro r hr e hre
      exact all_districts_head_least hAD e (mem_all_districts.mpr ⟨r, hr, hre⟩)

/-- C3 witness: the amended initialization property at the one-row filtered
view [rowStable], whose sorted district list is ["BBB"]. -/
theorem C3_init_first_of_filtered_witness :
    (∃ r ∈ [rowStable], r.district = some (S ("BBB"))) ∧
    (∀ r ∈ [rowStable], ∀ e, r.district = some e → S ("BBB") ≤ e) :=
  C3_init_first_of_filtered [rowStable] (S ("BBB")) (by decide)

/-- C4: re-validation on every render pass — a click stores the clicked key
whenever it is in the current filtered set, and when the stored key is
absent from the current filtered set (for example after a filter change
excluding the clicked key), the selection resolves to the
alphabetically-first district name of the filtered view: the resolved value
belongs to the filtered district list, is ≤ every district name occurring
in the filtered view, and the rendered detail row is a row of the filtered
view. -/
theorem C4_revalidation (df0 df : List JoinedRecord) (stored : Option PStr) (k : PStr)
    (hclick : k ∈ all_districts df0)
    (hne : all_districts df ≠ []) (hk : k ∉ all_districts df) :
    resolve_selected stored (some k) df0 = some k ∧
    ∃ d0, resolve_selected (some k) none df = some d0 ∧
      d0 ∈ all_districts df ∧
      (∀ r ∈ df, ∀ e, r.district = some e → d0 ≤ e) ∧
      ∃ r, drow df d0 = some r ∧ r ∈ df := by
  constructor
  · cases hAD0 : all_districts df0 with
    | nil => rw [hAD0] at hclick; exact absurd hclick (List.not_mem_nil k)
    | cons c0 crest =>
      rw [hAD0] at hclick
      simp only [resolve_selected, hAD0, Option.getD_some]
      rw [if_pos hclick]
  · cases hAD : all_districts df with
    | nil => exact absurd hAD hne
    | cons d0 rest =>
      refine ⟨d0, ?_, hAD ▸ List.mem_cons_self d0 rest, ?_, ?_⟩
      · rw [hAD] at hk
        simp only [resolve_selected, hAD, Option.getD_none, Option.getD_some]
        rw [if_neg hk]
      · intro r hr e hre
        exact all_districts_head_least hAD e (mem_all_districts.mpr ⟨r, hr, hre⟩)
      · exact drow_mem (mem_all_districts.mp (hAD ▸ List.mem_cons_self d0 rest))

/-- C4 witness: click "BBB" on the view [rowStable], then change the filter
so that the view becomes [rowNoClass]; the selection resolves to "AAA" and
the detail row is rowNoClass. -/
theorem C4_revalidation_witness :
    resolve_selected none (some (S ("BBB"))) [rowStable] = some (S ("BBB")) ∧
    ∃ d0, resolve_selected (some (S ("BBB"))) none [rowNoClass] = some d0 ∧
      d0 ∈ all_districts [rowNoClass] ∧
      (∀ r ∈ [rowNoClass], ∀ e, r.district = some e → d0 ≤ e) ∧
      ∃ r, drow [rowNoClass] d0 = some r ∧ r ∈ [rowNoClass] :=
  C4_revalidation [rowStable] [rowNoClass] none (S ("BBB"))
    (by decide) (by decide) (by decide)

/-- C6: counterexample — two statistics rows with the same normalized key
"X" make the single boundary row bX appear twice in the joined output, not
exactly once. -/
theorem C6_counterexample :
    (gdf_merge [bX] [sX1, sX2]).length = 2 ∧
    ([bX] : List BoundaryRecord).length = 1 := by
  exact ⟨by decide, by decide⟩

/-- C6 (amended): whenever each boundary row matches at most one statistics
row, every boundary row produces exactly one joined row, in input order
(the merge equals a per-boundary map), and the joined row of every
unmatched boundary row carries `none` in all statistics fields. -/
theorem C6_left_join (gdf : List BoundaryRecord) (stab : List StatRecord)
    (h : ∀ b ∈ gdf, (stab.filter (matchesKey b)).length ≤ 1) :
    gdf_merge gdf stab
      = gdf.map (fun b => joinRow b (stab.filter (matchesKey b))[0]?) ∧
    ∀ b : BoundaryRecord,
      (joinRow b none).district_stab = none ∧
      (joinRow b none).state_stab = none ∧
      (joinRow b none).stab_class = none ∧
      (joinRow b none).mean_acreage = none ∧
      (joinRow b none).predicted_2025 = none ∧
      (joinRow b none).acreage_2024 = none := by
  refine ⟨?_, fun b => ⟨rfl, rfl, rfl, rfl, rfl, rfl⟩⟩
  induction gdf with
  | nil => rfl
  | cons b rest ih =>
    rw [gdf_merge, List.flatMap_cons, List.map_cons]
    have hb := h b (List.mem_cons_self b rest)
    have hrest : gdf_merge rest stab
        = rest.map (fun x => joinRow x (stab.filter (matchesKey x))[0]?) :=
      ih fun x hx => h x (List.mem_cons_of_mem b hx)
    cases hf : stab.filter (matchesKey b) with
    | nil => rw [← gdf_merge, hrest]; rfl
    | cons s ss =>
      cases ss with
      | nil => rw [← gdf_merge, hrest]; rfl
      | cons s2 ss2 =>
        rw [hf] at hb
        simp at hb

/-- C6 witness: the amended join property at the concrete pair with one
boundary row bX and the single matching statistics row sX1. -/
theorem C6_left_join_witness :
    gdf_merge [bX] [sX1]
      = [bX].map (fun b => joinRow b (([sX1].filter (matchesKey b)))[0]?) ∧
    ∀ b : BoundaryRecord,
      (joinRow b none).district_stab = none ∧
      (joinRow b none).state_stab = none ∧
      (joinRow b none).stab_class = none ∧
      (joinRow b none).mean_acreage = none ∧
      (joinRow b none).predicted_2025 = none ∧
      (joinRow b none).acreage_2024 = none :=
  C6_left_join [bX] [sX1] (by decide)

/-- C9: the predicted total sums the non-null predicted values (a null cell
is skipped, equivalently contributes zero), and delta_pct is `none` — never
`some` of anything, in particular never zero — whenever the Mean_Acreage
column is absent, or its total is zero, in particular when every row's
Mean_Acreage is 0 or missing. -/
theorem C9_summary :
    (∀ df : List JoinedRecord,
      total_pred_2025 df = (df.map (fun r => (r.predicted_2025).getD 0)).sum) ∧
    (∀ df : List JoinedRecord, base_area df = 0 → delta_pct true df = none) ∧
    (∀ df : List JoinedRecord,
      (∀ r ∈ df, r.mean_acreage = some 0 ∨ r.mean_acreage = none) →
      delta_pct true df = none) ∧
    (∀ df : List JoinedRecord, delta_pct false df = none) := by
  refine ⟨fun df => filterMap_sum_eq_getD _ df,
    fun df h => delta_pct_none_of_base_zero h, ?_, fun df => rfl⟩
  intro df hall
  apply delta_pct_none_of_base_zero
  apply List.sum_eq_zero
  intro x hx
  obtain ⟨r, hr, hfr⟩ := List.mem_filterMap.mp hx
  rcases hall r hr with h0 | h0 <;> rw [h0] at hfr
  · cases hfr
    rfl
  · cases hfr

/-- C9 witness: on the one-row dataset [rowNoClass] (mean acreage missing)
delta_pct is none. -/
theorem C9_summary_witness : delta_pct true [rowNoClass] = none :=
  C9_summary.2.2.1 [rowNoClass] (by decide)

/-- C10: selection initialization indexes the first element of the sorted
non-null district list of the filtered view; on the non-empty view
[rowNoDistrict], whose only row has a null district name, that list is
empty and both the initialization `all_districts[0]` and the per-render
re-validation raise (modelled by `none`); conversely, one row with a
non-null district name guarantees the list is non-empty, so initialization
succeeds. -/
theorem C10_selection_safety :
    ([rowNoDistrict] : List JoinedRecord) ≠ [] ∧
    all_districts [rowNoDistrict] = [] ∧
    init_selected [rowNoDistrict] = none ∧
    (∀ stored clicked : Option PStr,
      resolve_selected stored clicked [rowNoDistrict] = none) ∧
    (∀ (df : List JoinedRecord) (r : JoinedRecord) (d : PStr),
      r ∈ df → r.district = some d → ∃ d0, init_selected df = some d0) := by
  refine ⟨by decide, by decide, by decide, ?_, ?_⟩
  · intro stored clicked
    have hAD : all_districts [rowNoDistrict] = [] := by decide
    simp [resolve_selected, hAD]
  · intro df r d hr hd
    cases hAD : all_districts df with
    | nil => exact absurd hAD (all_districts_ne_nil hr hd)
    | cons d0 rest => exact ⟨d0, by simp [init_selected, hAD]⟩

/-- C10 witness: on the view [rowStable] the row rowStable carries district
"BBB", so initialization succeeds. -/
theorem C10_selection_safety_witness :
    ∃ d0, init_selected [rowStable] = some d0 :=
  C10_selection_safety.2.2.2.2 [rowStable] rowStable (S ("BBB"))
    (by decide) (by decide)

end SoyDash
